import Mathlib

/-!
# AgensGraph extension: label catalog and Cypher path injection

Shallow embedding of

* `src/backend/optimizer/cypher_paths.c` (the `set_rel_pathlist` hook, the
  clause classifier and the CREATE path injector),
* `src/backend/catalog/ag_label.c` (`insert_label`, `delete_label`,
  `get_label_id`, `_label_id`),
* `src/backend/utils/adt/cypher_funcs.c` (`cypher`, `_cypher_create_clause`).

C functions that can raise (`ereport(ERROR, ...)`), trip an assertion or
dereference a NULL pointer return `Except Failure _`; stateful functions pass
the backend state explicitly.
-/

namespace AgensGraph

/-! ## Common PostgreSQL vocabulary -/

abbrev Oid := Nat

abbrev Datum := Nat

abbrev Index := Nat

def InvalidOid : Oid := 0

/-- The macro `OidIsValid(objectId)`: `((bool) ((objectId) != InvalidOid))`. -/
def OidIsValid (objectId : Oid) : Bool := objectId != InvalidOid

/-- The SQLSTATE classes used by the three source files, and the one a unique
index raises.  An `ereport(ERROR, ...)` without `errcode(...)` carries
`ERRCODE_INTERNAL_ERROR`. -/
inductive SqlErrCode
  | ERRCODE_INTERNAL_ERROR
  | ERRCODE_UNDEFINED_TABLE
  | ERRCODE_NULL_VALUE_NOT_ALLOWED
  | ERRCODE_UNIQUE_VIOLATION
  deriving DecidableEq, Repr

/-- What an `ereport(ERROR, ...)` call carries: code, primary message, detail. -/
structure ErrorData where
  sqlerrcode : SqlErrCode
  message : String
  detail : Option String
  deriving DecidableEq, Repr

/-- The ways a C function of this repository can fail to return. -/
inductive Failure
  /-- `ereport(ERROR, ...)`: a longjmp out of the function. -/
  | ereport (edata : ErrorData)
  /-- `ExceptionalCondition`: a failed `Assert*` aborts the backend. -/
  | trap (errorType : String)
  /-- Dereference of a NULL pointer, or of a pointer read out of a node of
  another type. -/
  | segv
  deriving DecidableEq, Repr

/-! ## Planner data (`nodes/primnodes.h`, `nodes/parsenodes.h`, `nodes/relation.h`) -/

/-- Expression nodes, as far as `cypher_paths.c` tells them apart by node tag. -/
inductive Expr
  | Var (varno : Index) (varattno : Int)
  | Const (constvalue : Datum)
  | FuncExpr (funcid : Oid) (args : List Expr)
  | OpExpr (opno : Oid) (args : List Expr)

structure TargetEntry where
  expr : Expr
  resno : Nat

structure Query where
  targetList : List TargetEntry

inductive RTEKind
  | RTE_RELATION
  | RTE_SUBQUERY
  | RTE_JOIN
  | RTE_FUNCTION
  | RTE_TABLEFUNC
  | RTE_VALUES
  | RTE_CTE
  | RTE_NAMEDTUPLESTORE
  deriving DecidableEq, Repr

/-- A range-table entry; `subquery` is a pointer and may be NULL (`none`). -/
structure RangeTblEntry where
  rtekind : RTEKind
  subquery : Option Query

/-- A planner path.  `CustomPath` holds the fields the injector sets. -/
inductive Path
  | Scan (pathtype : Nat) (parent_relid : Index)
  | CustomPath (parent_relid : Index) (custom_private : List Datum)
  deriving DecidableEq, Repr

structure RelOptInfo where
  relid : Index
  pathlist : List Path
  partial_pathlist : List Path
  deriving DecidableEq, Repr

structure PlannerInfo where
  query_level : Nat
  deriving DecidableEq, Repr

/-! ### `pg_list.h` accessors (PostgreSQL 11)

`llast(l)` is `lfirst(list_tail(l))` and `linitial(l)` is
`lfirst(list_head(l))`; `list_tail(NIL)` and `list_head(NIL)` are NULL, so
both macros dereference NULL on the empty list. -/

def llast {α : Type} (l : List α) : Except Failure α :=
  match l.getLast? with
  | some x => .ok x
  | none => .error .segv

def linitial {α : Type} (l : List α) : Except Failure α :=
  match l with
  | x :: _ => .ok x
  | [] => .error .segv

/-! ### `add_path` (PostgreSQL `optimizer/util/pathnode.c`)

The cost and pathkey comparisons of `add_path` work on floating-point costs;
their outcome for one old path is taken as an oracle value. -/

/-- What the body of the `add_path` loop decides for one old path. -/
structure PathVerdict where
  /-- The new path dominates the old one: the old one is unlinked. -/
  remove_old : Bool
  /-- False when the old path dominates the new one. -/
  accept_new : Bool
  /-- The test `new_path->total_cost >= old_path->total_cost`. -/
  cost_ge : Bool

/-- The loop of `add_path`: returns `accept_new` and the surviving old paths,
each flagged when `insert_after` was set to its cell.  The loop stops at the
first old path that rejects the new one. -/
def add_path_scan (cmp : Path → Path → PathVerdict) (new_path : Path) :
    List Path → Bool × List (Path × Bool)
  | [] => (true, [])
  | old_path :: rest =>
    let v := cmp new_path old_path
    if v.remove_old then
      if v.accept_new then add_path_scan cmp new_path rest
      else (false, rest.map fun p => (p, false))
    else
      if v.accept_new then
        let r := add_path_scan cmp new_path rest
        (r.1, (old_path, v.cost_ge) :: r.2)
      else (false, (old_path, v.cost_ge) :: rest.map fun p => (p, false))

/-- The insertion at the end of `add_path`: after the last cell recorded in
`insert_after` (`lappend_cell`), or at the head when there is none (`lcons`). -/
def add_path_insert (new_path : Path) (kept : List (Path × Bool)) : List Path :=
  let n := kept.length - (kept.reverse.takeWhile fun x => !x.2).length
  (kept.map Prod.fst).take n ++ new_path :: (kept.map Prod.fst).drop n

def add_path (cmp : Path → Path → PathVerdict) (parent_rel : RelOptInfo)
    (new_path : Path) : RelOptInfo :=
  let r := add_path_scan cmp new_path parent_rel.pathlist
  if r.1 then
    { parent_rel with pathlist := add_path_insert new_path r.2 }
  else
    { parent_rel with pathlist := r.2.map Prod.fst }

/-! ## `cypher_paths.c` -/

inductive cypher_clause_kind
  | CYPHER_CLAUSE_NONE
  | CYPHER_CLAUSE_CREATE
  deriving DecidableEq, Repr

/--
`get_cypher_clause_kind` (cypher_paths.c:78-100).  `is_oid_ag_func`
(`utils/ag_func.h`) is taken as a parameter.
-/
def get_cypher_clause_kind (is_oid_ag_func : Oid → String → Bool)
    (rte : RangeTblEntry) : Except Failure cypher_clause_kind :=
  -- If it's not a subquery, it's not a Cypher clause.
  if rte.rtekind ≠ RTEKind.RTE_SUBQUERY then
    .ok .CYPHER_CLAUSE_NONE
  else
    match rte.subquery with
    | none => .error .segv
    | some subquery =>
      -- A Cypher clause function is always the last entry.
      match llast subquery.targetList with
      | .error f => .error f
      | .ok te =>
        match te.expr with
        | .FuncExpr funcid _ =>
          if is_oid_ag_func funcid "_cypher_create_clause" then
            .ok .CYPHER_CLAUSE_CREATE
          else
            .ok .CYPHER_CLAUSE_NONE
        -- If the last entry is not a FuncExpr, it's not a Cypher clause.
        | _ => .ok .CYPHER_CLAUSE_NONE

/--
Modelled from the spec: `create_cypher_create_path` of
`optimizer/cypher_pathnode.c`, which is not among the sources.  The spec has
the injector install "one specialized path carrying the payload as opaque
plan-private data": a custom path of the relation whose private list is the
list handed in.
-/
def create_cypher_create_path (_root : PlannerInfo) (rel : RelOptInfo)
    (custom_private : List Datum) : Path :=
  .CustomPath rel.relid custom_private

/--
`handle_cypher_create_clause` (cypher_paths.c:103-124).  The casts
`(FuncExpr *)te->expr` and `c = linitial(fe->args)` are unchecked in C.  A
first argument that is not a `Const` is still read at the place of
`constvalue`: the function goes on with whatever datum lies there, which
`cast_constvalue` gives for each node.  A last target entry that is not a
`FuncExpr` has no `args` list to follow and is a `segv` here.
-/
def handle_cypher_create_clause (cmp : Path → Path → PathVerdict)
    (cast_constvalue : Expr → Datum) (root : PlannerInfo) (rel : RelOptInfo) (_rti : Index)
    (rte : RangeTblEntry) : Except Failure RelOptInfo :=
  match rte.subquery with
  | none => .error .segv
  | some subquery =>
    match llast subquery.targetList with
    | .error f => .error f
    | .ok te =>
      match te.expr with
      | .FuncExpr _ args =>
        match linitial args with
        | .error f => .error f
        | .ok c =>
          let constvalue : Datum :=
            match c with
            | .Const constvalue => constvalue
            | other => cast_constvalue other
          let custom_private : List Datum := [constvalue]
          -- Discard any pre-existing paths
          let rel := { rel with pathlist := [], partial_pathlist := [] }
          let cp := create_cypher_create_path root rel custom_private
          .ok (add_path cmp rel cp)
      | _ => .error .segv

/-- The memory the four hook arguments point into (`rti` is passed by value). -/
structure PlannerMem where
  root : PlannerInfo
  rel : RelOptInfo
  rte : RangeTblEntry

/-- A hook of another extension: it may rewrite what its pointer arguments
point to, or raise. -/
abbrev HookBody :=
  PlannerInfo → RelOptInfo → Index → RangeTblEntry → Except Failure PlannerMem

/-- A value of type `set_rel_pathlist_hook_type`: this file's static
`set_rel_pathlist`, or some other function. -/
inductive HookFn
  | cypher_set_rel_pathlist
  | foreign (body : HookBody)

/-- The global `set_rel_pathlist_hook` of the planner and this file's static
`prev_set_rel_pathlist_hook`; `none` is the NULL pointer. -/
structure HookGlobals where
  set_rel_pathlist_hook : Option HookFn
  prev_set_rel_pathlist_hook : Option HookFn

def set_rel_pathlist_init (g : HookGlobals) : HookGlobals :=
  { prev_set_rel_pathlist_hook := g.set_rel_pathlist_hook
    set_rel_pathlist_hook := some .cypher_set_rel_pathlist }

def set_rel_pathlist_fini (g : HookGlobals) : HookGlobals :=
  { g with set_rel_pathlist_hook := g.prev_set_rel_pathlist_hook }

/-- Ghost record of what one hook invocation did, in order. -/
inductive HookEvent
  /-- The previous hook was called through the saved pointer, with these arguments. -/
  | prev_hook_called (root : PlannerInfo) (rel : RelOptInfo) (rti : Index)
      (rte : RangeTblEntry)
  /-- `get_cypher_clause_kind` was called on this entry. -/
  | classified (rte : RangeTblEntry)

/-- The trace of an invocation and how it ended. -/
structure HookRun where
  trace : List HookEvent
  result : Except Failure PlannerMem

/-- The `switch` of `set_rel_pathlist` (cypher_paths.c:61-70), run on the
memory the previous hook left.  The `default:` arm is for values outside the
enum, which `get_cypher_clause_kind` never returns. -/
def set_rel_pathlist_switch (is_oid_ag_func : Oid → String → Bool)
    (cmp : Path → Path → PathVerdict) (cast_constvalue : Expr → Datum)
    (m : PlannerMem) (rti : Index) :
    Except Failure PlannerMem :=
  match get_cypher_clause_kind is_oid_ag_func m.rte with
  | .error f => .error f
  | .ok .CYPHER_CLAUSE_CREATE =>
    match handle_cypher_create_clause cmp cast_constvalue m.root m.rel rti m.rte with
    | .error f => .error f
    | .ok rel => .ok { m with rel := rel }
  | .ok .CYPHER_CLAUSE_NONE => .ok m

/--
`set_rel_pathlist` (cypher_paths.c:55-71).  The saved pointer can be this very
function (after a second `set_rel_pathlist_init`), in which case the C code
recurses without end; `fuel` bounds the call depth and `none` is "out of fuel".
-/
def set_rel_pathlist (is_oid_ag_func : Oid → String → Bool)
    (cmp : Path → Path → PathVerdict) (cast_constvalue : Expr → Datum)
    (g : HookGlobals) :
    Nat → PlannerInfo → RelOptInfo → Index → RangeTblEntry → Option HookRun
  | 0, _, _, _, _ => none
  | fuel + 1, root, rel, rti, rte =>
    let after_prev : Option HookRun :=
      match g.prev_set_rel_pathlist_hook with
      | none => some ⟨[], .ok ⟨root, rel, rte⟩⟩
      | some (.foreign body) =>
        some ⟨[.prev_hook_called root rel rti rte], body root rel rti rte⟩
      | some .cypher_set_rel_pathlist =>
        match set_rel_pathlist is_oid_ag_func cmp cast_constvalue g fuel root rel rti rte with
        | none => none
        | some run => some ⟨.prev_hook_called root rel rti rte :: run.trace, run.result⟩
    match after_prev with
    | none => none
    | some ⟨trace, .error f⟩ => some ⟨trace, .error f⟩
    | some ⟨trace, .ok m⟩ =>
      some ⟨trace ++ [.classified m.rte],
        set_rel_pathlist_switch is_oid_ag_func cmp cast_constvalue m rti⟩

/-! ## `ag_label.c`: the label catalog -/

/-- Declarations of `catalog/ag_label.h`, which is not among the sources. -/
structure LabelDecls where
  label_id_is_valid : Int → Bool
  LABEL_KIND_VERTEX : Char
  LABEL_KIND_EDGE : Char
  INVALID_LABEL_ID : Int

/-- A C string: the bytes before the terminating NUL. -/
abbrev CString := List UInt8

/-- The bytes of a string literal of the examples. -/
def cstring (s : String) : CString := s.toUTF8.data.toList

/-- The length of a `NameData` buffer (`pg_config_manual.h`). -/
def NAMEDATALEN : Nat := 64

/-- `namestrcpy(name, str)` of PostgreSQL 11: returns -1 and leaves the buffer
alone when `str` is NULL, else `StrNCpy(NameStr(*name), str, NAMEDATALEN)`,
which copies at most `NAMEDATALEN - 1` bytes of `str` and terminates the
buffer, and returns 0.  The first argument is the content of the buffer before
the call; the result is the return value and the content after it. -/
def namestrcpy (name : CString) (str : Option CString) : Int × CString :=
  match str with
  | none => (-1, name)
  | some bytes => (0, bytes.take (NAMEDATALEN - 1))

/-- A tuple of `ag_catalog.ag_label`: its OID and its five columns, `none` for
a null column. -/
structure HeapTuple where
  t_oid : Oid
  name : Option CString
  graph : Option Oid
  id : Option Int
  kind : Option Char
  relation : Option Oid
  deriving DecidableEq, Repr

/-- What the catalog functions see of the backend: the visible tuples of
`ag_label` in scan order (a tuple's position is its `t_self`), the OID counter,
the `RowExclusiveLock` holds this backend has on `ag_label`, and its open
scans. -/
structure Backend where
  ag_label : List HeapTuple
  next_oid : Oid
  ag_label_locks : Nat
  open_scans : Nat
  deriving DecidableEq, Repr

/-- `heap_open(ag_label_relation_id(), RowExclusiveLock)`. -/
def heap_open (st : Backend) : Backend :=
  { st with ag_label_locks := st.ag_label_locks + 1 }

/-- `heap_close(ag_label, RowExclusiveLock)`. -/
def heap_close (st : Backend) : Backend :=
  { st with ag_label_locks := st.ag_label_locks - 1 }

def systable_beginscan (st : Backend) : Backend :=
  { st with open_scans := st.open_scans + 1 }

def systable_endscan (st : Backend) : Backend :=
  { st with open_scans := st.open_scans - 1 }

/-- `systable_getnext` on a fresh scan with the key `relation = key`
(`BTEqualStrategyNumber`, `F_OIDEQ`): the position of the first matching tuple. -/
def systable_getnext (key : Oid) : List HeapTuple → Option Nat
  | [] => none
  | t :: rest =>
    if t.relation = some key then some 0
    else (systable_getnext key rest).map (· + 1)

/-- `heap_form_tuple(desc, values, nulls)` for the five columns of `ag_label`. -/
def heap_form_tuple (name : CString) (graph : Oid) (id : Int) (kind : Char)
    (relation : Oid) (nulls : Fin 5 → Bool) : HeapTuple :=
  { t_oid := InvalidOid
    name := if nulls 0 then none else some name
    graph := if nulls 1 then none else some graph
    id := if nulls 2 then none else some id
    kind := if nulls 3 then none else some kind
    relation := if nulls 4 then none else some relation }

/-- `CatalogTupleInsert(ag_label, tuple)`: the tuple gets a fresh OID and goes
into the heap and then into the indexes of `ag_label`.  The indexes are
declared outside the sources; `store_error rows t` is the error, if any, that
the insertion of `t` next to `rows` raises (a duplicate key in a unique index).
When it raises, control leaves by `ereport(ERROR, ...)` and the tuple does not
become visible; else the OID of the stored tuple is returned. -/
def CatalogTupleInsert (store_error : List HeapTuple → HeapTuple → Option ErrorData)
    (st : Backend) (tuple : HeapTuple) : Except ErrorData Oid × Backend :=
  let stored : HeapTuple := { tuple with t_oid := st.next_oid }
  match store_error st.ag_label stored with
  | some edata => (.error edata, { st with next_oid := st.next_oid + 1 })
  | none =>
    (.ok st.next_oid,
     { st with
       ag_label := st.ag_label ++ [stored]
       next_oid := st.next_oid + 1 })

/--
Modelled from the spec: the unique indexes of `ag_label`, which are declared
outside the sources.  The spec (3, 4.1) has `(graph, name)`, `(graph, label_id)`
and `relation` unique and the store reject a duplicate with an error of its own
kind.  The examples use it as their `store_error`.
-/
def ag_label_unique_indexes (rows : List HeapTuple) (t : HeapTuple) : Option ErrorData :=
  if rows.any fun u =>
      decide ((u.graph = t.graph ∧ u.name = t.name) ∨ (u.graph = t.graph ∧ u.id = t.id) ∨
        u.relation = t.relation)
  then
    some { sqlerrcode := .ERRCODE_UNIQUE_VIOLATION
           message := "duplicate key value violates unique constraint"
           detail := none }
  else none

/-- `CatalogTupleDelete(ag_label, &tuple->t_self)`. -/
def CatalogTupleDelete (st : Backend) (t_self : Nat) : Backend :=
  { st with ag_label := st.ag_label.eraseIdx t_self }

/-- `AssertArg(condition)` of `c.h`: checked only when `USE_ASSERT_CHECKING`
is defined, and then a failure is `ExceptionalCondition(..., "BadArgument", ...)`. -/
def AssertArg (USE_ASSERT_CHECKING : Bool) (condition : Bool) : Except Failure Unit :=
  if USE_ASSERT_CHECKING && !condition then .error (.trap "BadArgument") else .ok ()

/-- The five `AssertArg` lines of `insert_label` (ag_label.c:55-60). -/
def insert_label_asserts (USE_ASSERT_CHECKING : Bool) (h : LabelDecls)
    (label_name : Option CString) (label_graph : Oid) (label_id : Int)
    (label_kind : Char) (label_relation : Oid) : Except Failure Unit := do
  AssertArg USE_ASSERT_CHECKING label_name.isSome
  AssertArg USE_ASSERT_CHECKING (OidIsValid label_graph)
  AssertArg USE_ASSERT_CHECKING (h.label_id_is_valid label_id)
  AssertArg USE_ASSERT_CHECKING
    (label_kind == h.LABEL_KIND_VERTEX || label_kind == h.LABEL_KIND_EDGE)
  AssertArg USE_ASSERT_CHECKING (OidIsValid label_relation)

/--
`insert_label` (ag_label.c:41-91).  `label_name` is a `const char *` and may be
NULL (`none`).  `uninit_name` is what the local `label_name_data` holds before
`namestrcpy` writes it: the function does not initialise it and does not look
at the return value of `namestrcpy`.  Returns the outcome and the backend
state at that point: when `CatalogTupleInsert` raises, control leaves the
function at once.
-/
def insert_label (USE_ASSERT_CHECKING : Bool) (h : LabelDecls)
    (store_error : List HeapTuple → HeapTuple → Option ErrorData)
    (uninit_name : CString)
    (label_name : Option CString) (label_graph : Oid) (label_id : Int)
    (label_kind : Char) (label_relation : Oid) (st : Backend) :
    Except Failure Oid × Backend :=
  match insert_label_asserts USE_ASSERT_CHECKING h label_name label_graph label_id
      label_kind label_relation with
  | .error f => (.error f, st)
  | .ok () =>
    let label_name_data := (namestrcpy uninit_name label_name).2
    let nulls : Fin 5 → Bool := fun _ => false
    let st := heap_open st
    let tuple := heap_form_tuple label_name_data label_graph label_id label_kind
      label_relation nulls
    match CatalogTupleInsert store_error st tuple with
    | (.error edata, st) => (.error (.ereport edata), st)
    | (.ok label_oid, st) =>
      let st := heap_close st
      (.ok label_oid, st)

/--
`delete_label` (ag_label.c:94-120).  Returns the outcome and the backend state
at that point: on `ereport(ERROR, ...)` control leaves the function at once.
-/
def delete_label (relation : Oid) (st : Backend) : Except Failure Unit × Backend :=
  let st := heap_open st
  let st := systable_beginscan st
  match systable_getnext relation st.ag_label with
  | none =>
    (.error (.ereport
      { sqlerrcode := .ERRCODE_UNDEFINED_TABLE
        message := "label (relation=" ++ toString relation ++ ") does not exist"
        detail := none }), st)
  | some t_self =>
    let st := CatalogTupleDelete st t_self
    let st := systable_endscan st
    let st := heap_close st
    (.ok (), st)

/-- An entry of the label cache (`utils/ag_cache.h`). -/
structure label_cache_data where
  oid : Oid
  name : String
  graph : Oid
  id : Int
  kind : Char
  relation : Oid
  deriving DecidableEq, Repr

/-- `get_label_id` (ag_label.c:133-142).  `search_label_name_graph_cache`
(`utils/ag_cache.c`) is taken as a parameter. -/
def get_label_id (h : LabelDecls)
    (search_label_name_graph_cache : String → Oid → Option label_cache_data)
    (label_name : String) (label_graph : Oid) : Int :=
  match search_label_name_graph_cache label_name label_graph with
  | some cache_data => cache_data.id
  | none => h.INVALID_LABEL_ID

/-- Ghost record of the lookups `_label_id` makes, in order. -/
inductive LookupEvent
  | graph_oid (graph_name : String)
  | label_name_graph_cache (label_name : String) (label_graph : Oid)
  deriving DecidableEq, Repr

structure LabelIdRun where
  lookups : List LookupEvent
  result : Except Failure Int

/--
`_label_id` (ag_label.c:162-181).  The two arguments are SQL values that may be
null (`none`); `get_graph_oid` (`catalog/ag_graph.c`) is taken as a parameter.
-/
def _label_id (h : LabelDecls) (get_graph_oid : String → Oid)
    (search_label_name_graph_cache : String → Oid → Option label_cache_data)
    (arg0 arg1 : Option String) : LabelIdRun :=
  match arg0, arg1 with
  | some graph_name, some label_name =>
    let graph := get_graph_oid graph_name
    let id := get_label_id h search_label_name_graph_cache label_name graph
    { lookups := [.graph_oid graph_name, .label_name_graph_cache label_name graph]
      result := .ok id }
  | _, _ =>
    { lookups := []
      result := .error (.ereport
        { sqlerrcode := .ERRCODE_NULL_VALUE_NOT_ALLOWED
          message := "graph_name and label_name must not be null"
          detail := none }) }

/-! ## `cypher_funcs.c` -/

/-- `cypher` (cypher_funcs.c:23-33); the `PG_RETURN_NULL()` after the
`ereport(ERROR, ...)` is never reached. -/
def cypher (arg0 : Option String) : Except Failure Datum :=
  let s := match arg0 with
    | none => "NULL"
    | some v => v
  .error (.ereport
    { sqlerrcode := .ERRCODE_INTERNAL_ERROR
      message := "unhandled cypher(cstring) function call"
      detail := some s })

/-- `_cypher_create_clause` (cypher_funcs.c:37-43). -/
def _cypher_create_clause (_arg0 : Option Datum) : Except Failure Datum :=
  .error (.ereport
    { sqlerrcode := .ERRCODE_INTERNAL_ERROR
      message := "unhandled _cypher_create_clause(internal) function call"
      detail := none })

/-! ## Planner side: the classifier and the injector -/

/-- C1: a subquery entry whose target list ends in a call of the
`_cypher_create_clause` sentinel classifies as CREATE, whatever the earlier
entries of the list are. -/
theorem get_cypher_clause_kind_create (is_oid_ag_func : Oid → String → Bool)
    (rte : RangeTblEntry) (subquery : Query) (earlier : List TargetEntry)
    (te : TargetEntry) (funcid : Oid) (args : List Expr)
    (hkind : rte.rtekind = .RTE_SUBQUERY)
    (hsub : rte.subquery = some subquery)
    (hlist : subquery.targetList = earlier ++ [te])
    (hexpr : te.expr = .FuncExpr funcid args)
    (hfn : is_oid_ag_func funcid "_cypher_create_clause" = true) :
    get_cypher_clause_kind is_oid_ag_func rte = .ok .CYPHER_CLAUSE_CREATE := by
  simp [get_cypher_clause_kind, llast, hkind, hsub, hlist, hexpr, hfn]

theorem get_cypher_clause_kind_create_witness :
    get_cypher_clause_kind (fun funcid name => funcid == 7001 && name == "_cypher_create_clause")
      ⟨.RTE_SUBQUERY, some ⟨[⟨.Var 1 1, 1⟩, ⟨.FuncExpr 7001 [.Const 99], 2⟩]⟩⟩
      = .ok .CYPHER_CLAUSE_CREATE :=
  get_cypher_clause_kind_create _ _ ⟨[⟨.Var 1 1, 1⟩, ⟨.FuncExpr 7001 [.Const 99], 2⟩]⟩
    [⟨.Var 1 1, 1⟩] ⟨.FuncExpr 7001 [.Const 99], 2⟩ 7001 [.Const 99] rfl rfl rfl rfl
    (by decide)

/-- The macro `llast` on a list with a last cell. -/
theorem llast_append_singleton {α : Type} (earlier : List α) (x : α) :
    llast (earlier ++ [x]) = .ok x := by
  simp [llast]

/-- Part (i) of the NONE cases: an entry that is not a subquery. -/
theorem get_cypher_clause_kind_not_subquery (is_oid_ag_func : Oid → String → Bool)
    (rte : RangeTblEntry) (hkind : rte.rtekind ≠ .RTE_SUBQUERY) :
    get_cypher_clause_kind is_oid_ag_func rte = .ok .CYPHER_CLAUSE_NONE := by
  simp [get_cypher_clause_kind, hkind]

/-- Parts (ii)-(iv) of the NONE cases: a subquery with a non-empty target list
whose last entry is not a call of the sentinel, whatever stands before it. -/
theorem get_cypher_clause_kind_last_not_sentinel (is_oid_ag_func : Oid → String → Bool)
    (rte : RangeTblEntry) (subquery : Query) (earlier : List TargetEntry)
    (te : TargetEntry)
    (hsub : rte.subquery = some subquery)
    (hlist : subquery.targetList = earlier ++ [te])
    (hlast : ∀ funcid args, te.expr = .FuncExpr funcid args →
      is_oid_ag_func funcid "_cypher_create_clause" = false) :
    get_cypher_clause_kind is_oid_ag_func rte = .ok .CYPHER_CLAUSE_NONE := by
  by_cases hkind : rte.rtekind = .RTE_SUBQUERY
  · simp only [get_cypher_clause_kind, hkind, hsub, hlist, llast_append_singleton, ne_eq,
      not_true_eq_false, if_false]
    split
    · rename_i funcid args hte
      simp [hlast funcid args hte]
    · rfl
  · simp [get_cypher_clause_kind, hkind]

/-- C2: on a subquery entry whose target list is empty the classifier does not
return NONE: `llast(NIL)` reads through a NULL cell. -/
theorem get_cypher_clause_kind_empty_targetList (is_oid_ag_func : Oid → String → Bool) :
    get_cypher_clause_kind is_oid_ag_func ⟨.RTE_SUBQUERY, some ⟨[]⟩⟩
      = .error .segv := by
  simp [get_cypher_clause_kind, llast]

/-- On an empty path list `add_path` stores the new path, for any comparison. -/
theorem add_path_nil (cmp : Path → Path → PathVerdict) (rel : RelOptInfo)
    (new_path : Path) (hnil : rel.pathlist = []) :
    add_path cmp rel new_path = { rel with pathlist := [new_path] } := by
  simp [add_path, add_path_scan, add_path_insert, hnil]

/-- C3: whatever paths and partial paths the relation had, after
`handle_cypher_create_clause` on a subquery entry whose last target entry is a
call with first argument the constant `P`, the relation has exactly one path,
no partial path, and the private list of that path is `[P]`. -/
theorem handle_cypher_create_clause_single_path (cmp : Path → Path → PathVerdict)
    (cast_constvalue : Expr → Datum)
    (root : PlannerInfo) (rel : RelOptInfo) (rti : Index) (rte : RangeTblEntry)
    (subquery : Query) (earlier : List TargetEntry) (te : TargetEntry)
    (funcid : Oid) (P : Datum) (more_args : List Expr)
    (hsub : rte.subquery = some subquery)
    (hlist : subquery.targetList = earlier ++ [te])
    (hexpr : te.expr = .FuncExpr funcid (.Const P :: more_args)) :
    handle_cypher_create_clause cmp cast_constvalue root rel rti rte
      = .ok { relid := rel.relid
              pathlist := [.CustomPath rel.relid [P]]
              partial_pathlist := [] } := by
  simp [handle_cypher_create_clause, llast, linitial, hsub, hlist, hexpr, add_path_nil,
    create_cypher_create_path]

theorem handle_cypher_create_clause_single_path_witness :
    handle_cypher_create_clause (fun _ _ => ⟨false, false, true⟩) (fun _ => 0) ⟨1⟩
      ⟨3, [.Scan 18 3, .Scan 21 3, .Scan 22 3, .Scan 23 3, .Scan 24 3], [.Scan 18 3]⟩ 3
      ⟨.RTE_SUBQUERY, some ⟨[⟨.Var 1 1, 1⟩, ⟨.FuncExpr 7001 [.Const 99], 2⟩]⟩⟩
      = .ok { relid := 3, pathlist := [.CustomPath 3 [99]], partial_pathlist := [] } :=
  handle_cypher_create_clause_single_path _ _ _ _ _ _
    ⟨[⟨.Var 1 1, 1⟩, ⟨.FuncExpr 7001 [.Const 99], 2⟩]⟩ [⟨.Var 1 1, 1⟩]
    ⟨.FuncExpr 7001 [.Const 99], 2⟩ 7001 99 [] rfl rfl rfl

/-- A first argument that is not a `Const` does not stop the injector: it
installs the one custom path with the datum read through the cast. -/
theorem handle_cypher_create_clause_cast (cmp : Path → Path → PathVerdict)
    (cast_constvalue : Expr → Datum)
    (root : PlannerInfo) (rel : RelOptInfo) (rti : Index) (rte : RangeTblEntry)
    (subquery : Query) (earlier : List TargetEntry) (te : TargetEntry)
    (funcid : Oid) (varno : Index) (varattno : Int) (more_args : List Expr)
    (hsub : rte.subquery = some subquery)
    (hlist : subquery.targetList = earlier ++ [te])
    (hexpr : te.expr = .FuncExpr funcid (.Var varno varattno :: more_args)) :
    handle_cypher_create_clause cmp cast_constvalue root rel rti rte
      = .ok { relid := rel.relid
              pathlist := [.CustomPath rel.relid [cast_constvalue (.Var varno varattno)]]
              partial_pathlist := [] } := by
  simp [handle_cypher_create_clause, llast, linitial, hsub, hlist, hexpr, add_path_nil,
    create_cypher_create_path]

/-- Whenever the injector returns, the relation it returns has exactly one
path, a custom path, and no partial path. -/
theorem handle_cypher_create_clause_ok (cmp : Path → Path → PathVerdict)
    (cast_constvalue : Expr → Datum)
    (root : PlannerInfo) (rel rel1 : RelOptInfo) (rti : Index) (rte : RangeTblEntry)
    (hok : handle_cypher_create_clause cmp cast_constvalue root rel rti rte = .ok rel1) :
    ∃ P, rel1 = { relid := rel.relid
                  pathlist := [.CustomPath rel.relid [P]]
                  partial_pathlist := [] } := by
  unfold handle_cypher_create_clause at hok
  split at hok
  · cases hok
  · split at hok
    · cases hok
    · split at hok
      · split at hok
        · cases hok
        · simp only [add_path_nil, create_cypher_create_path, Except.ok.injEq] at hok
          exact ⟨_, hok.symm⟩
      · cases hok

/-! ## Hook chaining -/

/-- With no saved hook an invocation classifies the entry it was given and
runs the switch on the untouched arguments. -/
theorem set_rel_pathlist_no_prev (is_oid_ag_func : Oid → String → Bool)
    (cmp : Path → Path → PathVerdict) (cast_constvalue : Expr → Datum)
    (g : HookGlobals) (fuel : Nat)
    (root : PlannerInfo) (rel : RelOptInfo) (rti : Index) (rte : RangeTblEntry)
    (hprev : g.prev_set_rel_pathlist_hook = none) :
    set_rel_pathlist is_oid_ag_func cmp cast_constvalue g (fuel + 1) root rel rti rte
      = some ⟨[.classified rte],
          set_rel_pathlist_switch is_oid_ag_func cmp cast_constvalue ⟨root, rel, rte⟩ rti⟩ := by
  simp [set_rel_pathlist, hprev]

/-- With the hook of another extension saved, an invocation calls it once on
the arguments it was given and then works on what that hook left. -/
theorem set_rel_pathlist_foreign_prev (is_oid_ag_func : Oid → String → Bool)
    (cmp : Path → Path → PathVerdict) (cast_constvalue : Expr → Datum)
    (g : HookGlobals) (fuel : Nat)
    (root : PlannerInfo) (rel : RelOptInfo) (rti : Index) (rte : RangeTblEntry)
    (body : HookBody)
    (hprev : g.prev_set_rel_pathlist_hook = some (.foreign body)) :
    set_rel_pathlist is_oid_ag_func cmp cast_constvalue g (fuel + 1) root rel rti rte
      = some (match body root rel rti rte with
          | .error f => ⟨[.prev_hook_called root rel rti rte], .error f⟩
          | .ok m =>
            ⟨[.prev_hook_called root rel rti rte, .classified m.rte],
              set_rel_pathlist_switch is_oid_ag_func cmp cast_constvalue m rti⟩) := by
  simp only [set_rel_pathlist, hprev]
  cases body root rel rti rte <;> simp

/-- When the saved pointer is this file's own `set_rel_pathlist` (the hook was
installed twice), an invocation never returns, whatever the fuel. -/
theorem set_rel_pathlist_self_prev (is_oid_ag_func : Oid → String → Bool)
    (cmp : Path → Path → PathVerdict) (cast_constvalue : Expr → Datum)
    (g : HookGlobals) (fuel : Nat)
    (root : PlannerInfo) (rel : RelOptInfo) (rti : Index) (rte : RangeTblEntry)
    (hprev : g.prev_set_rel_pathlist_hook = some .cypher_set_rel_pathlist) :
    set_rel_pathlist is_oid_ag_func cmp cast_constvalue g fuel root rel rti rte = none := by
  induction fuel with
  | zero => simp [set_rel_pathlist]
  | succ n ih => simp [set_rel_pathlist, hprev, ih]

/-- When the switch sees a CREATE clause and returns, the relation is left with
one custom path and no partial path, and nothing else is touched. -/
theorem set_rel_pathlist_switch_create (is_oid_ag_func : Oid → String → Bool)
    (cmp : Path → Path → PathVerdict) (cast_constvalue : Expr → Datum)
    (m m1 : PlannerMem) (rti : Index)
    (hkind : get_cypher_clause_kind is_oid_ag_func m.rte = .ok .CYPHER_CLAUSE_CREATE)
    (hok : set_rel_pathlist_switch is_oid_ag_func cmp cast_constvalue m rti = .ok m1) :
    ∃ P, m1.rel = { relid := m.rel.relid
                    pathlist := [.CustomPath m.rel.relid [P]]
                    partial_pathlist := [] } := by
  simp only [set_rel_pathlist_switch, hkind] at hok
  cases hh : handle_cypher_create_clause cmp cast_constvalue m.root m.rel rti m.rte with
  | error f => simp [hh] at hok
  | ok rel1 =>
    obtain ⟨P, hP⟩ :=
      handle_cypher_create_clause_ok cmp cast_constvalue m.root m.rel rel1 rti m.rte hh
    refine ⟨P, ?_⟩
    simp only [hh, Except.ok.injEq] at hok
    rw [← hok, ← hP]

/-- C10, as the claim states it, fails for one previous hook value: when
`set_rel_pathlist_init` runs while this file's hook is already in the slot, the
saved `h` is this file's own `set_rel_pathlist`, and an invocation then calls
itself without end: for no call depth does it return. -/
theorem set_rel_pathlist_own_hook_never_returns :
    ¬ ∃ (fuel : Nat) (run : HookRun),
      set_rel_pathlist (fun funcid name => funcid == 7001 && name == "_cypher_create_clause")
        (fun _ _ => ⟨false, true, true⟩) (fun _ => 0)
        (set_rel_pathlist_init (set_rel_pathlist_init ⟨none, none⟩))
        fuel ⟨1⟩ ⟨3, [.Scan 24 3], []⟩ 3 ⟨.RTE_RELATION, none⟩ = some run := by
  rintro ⟨fuel, run, hrun⟩
  rw [set_rel_pathlist_self_prev _ _ _ _ fuel _ _ _ _ rfl] at hrun
  cases hrun

/-- C10, amended: `set_rel_pathlist_init` installs this file's hook and saves
the previous value `h` of the slot, whatever it is, and `set_rel_pathlist_fini`
right after puts `h` back.  While installed: with `h` absent an invocation
calls no other hook and classifies the entry it was given; with `h` the hook of
another extension it calls `h` exactly once, on the four arguments it was
given, before it classifies, and stops there if `h` raises; when the entry `h`
left is a CREATE clause and the invocation returns, the relation holds the one
custom path only, so the paths `h` added are gone; and with `h` this file's own
hook an invocation never returns, at any call depth. -/
theorem set_rel_pathlist_chaining (is_oid_ag_func : Oid → String → Bool)
    (cmp : Path → Path → PathVerdict) (cast_constvalue : Expr → Datum)
    (g : HookGlobals) (fuel : Nat)
    (root : PlannerInfo) (rel : RelOptInfo) (rti : Index) (rte : RangeTblEntry) :
    (set_rel_pathlist_init g).set_rel_pathlist_hook = some .cypher_set_rel_pathlist ∧
    (set_rel_pathlist_init g).prev_set_rel_pathlist_hook = g.set_rel_pathlist_hook ∧
    (set_rel_pathlist_fini (set_rel_pathlist_init g)).set_rel_pathlist_hook
      = g.set_rel_pathlist_hook ∧
    (g.set_rel_pathlist_hook = none →
      set_rel_pathlist is_oid_ag_func cmp cast_constvalue (set_rel_pathlist_init g) (fuel + 1)
          root rel rti rte
        = some ⟨[.classified rte],
            set_rel_pathlist_switch is_oid_ag_func cmp cast_constvalue ⟨root, rel, rte⟩ rti⟩) ∧
    (∀ body : HookBody, g.set_rel_pathlist_hook = some (.foreign body) →
      set_rel_pathlist is_oid_ag_func cmp cast_constvalue (set_rel_pathlist_init g) (fuel + 1)
          root rel rti rte
        = some (match body root rel rti rte with
            | .error f => ⟨[.prev_hook_called root rel rti rte], .error f⟩
            | .ok m =>
              ⟨[.prev_hook_called root rel rti rte, .classified m.rte],
                set_rel_pathlist_switch is_oid_ag_func cmp cast_constvalue m rti⟩)) ∧
    (∀ (body : HookBody) (m m1 : PlannerMem) (run : HookRun),
      g.set_rel_pathlist_hook = some (.foreign body) →
      body root rel rti rte = .ok m →
      get_cypher_clause_kind is_oid_ag_func m.rte = .ok .CYPHER_CLAUSE_CREATE →
      set_rel_pathlist is_oid_ag_func cmp cast_constvalue (set_rel_pathlist_init g) (fuel + 1)
          root rel rti rte
        = some run →
      run.result = .ok m1 →
      ∃ P, m1.rel = { relid := m.rel.relid
                      pathlist := [.CustomPath m.rel.relid [P]]
                      partial_pathlist := [] }) ∧
    (g.set_rel_pathlist_hook = some .cypher_set_rel_pathlist →
      ∀ depth : Nat,
        set_rel_pathlist is_oid_ag_func cmp cast_constvalue (set_rel_pathlist_init g) depth
          root rel rti rte = none) := by
  refine ⟨rfl, rfl, rfl, ?_, ?_, ?_, ?_⟩
  · intro hnone
    exact set_rel_pathlist_no_prev _ _ _ _ _ _ _ _ _ hnone
  · intro body hbody
    exact set_rel_pathlist_foreign_prev _ _ _ _ _ _ _ _ _ body hbody
  · intro body m m1 run hbody hm hkind hrun hres
    rw [set_rel_pathlist_foreign_prev _ _ _ _ _ _ _ _ _ body hbody, hm] at hrun
    simp only [Option.some.injEq] at hrun
    subst hrun
    exact set_rel_pathlist_switch_create is_oid_ag_func cmp cast_constvalue m m1 rti hkind hres
  · intro hown depth
    exact set_rel_pathlist_self_prev _ _ _ _ depth _ _ _ _ hown

theorem set_rel_pathlist_chaining_witness :
    set_rel_pathlist (fun funcid name => funcid == 7001 && name == "_cypher_create_clause")
      (fun _ _ => ⟨false, true, true⟩) (fun _ => 0)
      (set_rel_pathlist_init
        ⟨some (.foreign fun root rel _ rte =>
          .ok ⟨root, { rel with pathlist := .Scan 18 3 :: .Scan 21 3 :: rel.pathlist }, rte⟩),
         none⟩)
      1 ⟨1⟩ ⟨3, [.Scan 24 3], []⟩ 3
      ⟨.RTE_SUBQUERY, some ⟨[⟨.Var 1 1, 1⟩, ⟨.FuncExpr 7001 [.Const 99], 2⟩]⟩⟩
    = some ⟨[.prev_hook_called ⟨1⟩ ⟨3, [.Scan 24 3], []⟩ 3
              ⟨.RTE_SUBQUERY, some ⟨[⟨.Var 1 1, 1⟩, ⟨.FuncExpr 7001 [.Const 99], 2⟩]⟩⟩,
             .classified
              ⟨.RTE_SUBQUERY, some ⟨[⟨.Var 1 1, 1⟩, ⟨.FuncExpr 7001 [.Const 99], 2⟩]⟩⟩],
            .ok ⟨⟨1⟩, ⟨3, [.CustomPath 3 [99]], []⟩,
              ⟨.RTE_SUBQUERY, some ⟨[⟨.Var 1 1, 1⟩, ⟨.FuncExpr 7001 [.Const 99], 2⟩]⟩⟩⟩⟩ ∧
    set_rel_pathlist (fun funcid name => funcid == 7001 && name == "_cypher_create_clause")
      (fun _ _ => ⟨false, true, true⟩) (fun _ => 0)
      (set_rel_pathlist_init ⟨some .cypher_set_rel_pathlist, none⟩)
      1000 ⟨1⟩ ⟨3, [.Scan 24 3], []⟩ 3 ⟨.RTE_RELATION, none⟩ = none :=
  ⟨((set_rel_pathlist_chaining _ _ _ _ 0 _ _ _ _).2.2.2.2.1 _ rfl).trans (by
      simp [set_rel_pathlist_switch, get_cypher_clause_kind, handle_cypher_create_clause, llast,
        linitial, add_path_nil, create_cypher_create_path]),
    (set_rel_pathlist_chaining _ _ _ ⟨some .cypher_set_rel_pathlist, none⟩ 0 _ _ _ _).2.2.2.2.2.2
      rfl 1000⟩

/-! ## The label catalog: `delete_label` -/

/-- The scan finds nothing exactly when no tuple has the key in `relation`. -/
theorem systable_getnext_eq_none (key : Oid) (rows : List HeapTuple) :
    systable_getnext key rows = none ↔ ∀ t ∈ rows, t.relation ≠ some key := by
  induction rows with
  | nil => simp [systable_getnext]
  | cons t rest ih =>
    by_cases ht : t.relation = some key
    · simp [systable_getnext, ht]
    · simp [systable_getnext, ht, ih]

/-- The position the scan returns is that of the first tuple with the key. -/
theorem systable_getnext_eq_some (key : Oid) (rows : List HeapTuple) (i : Nat)
    (hget : systable_getnext key rows = some i) :
    ∃ pre t post, rows = pre ++ t :: post ∧ pre.length = i ∧ t.relation = some key ∧
      ∀ u ∈ pre, u.relation ≠ some key := by
  induction rows generalizing i with
  | nil => simp [systable_getnext] at hget
  | cons t rest ih =>
    by_cases ht : t.relation = some key
    · simp only [systable_getnext, ht, if_true, Option.some.injEq] at hget
      exact ⟨[], t, rest, rfl, by simpa using hget, ht, by simp⟩
    · simp only [systable_getnext, ht, if_false, Option.map_eq_some'] at hget
      obtain ⟨j, hj, hji⟩ := hget
      obtain ⟨pre, u, post, hrows, hlen, hu, hpre⟩ := ih j hj
      refine ⟨t :: pre, u, post, by simp [hrows], by simp [hlen, hji], hu, ?_⟩
      intro w hw
      rcases List.mem_cons.mp hw with hw | hw
      · rw [hw]; exact ht
      · exact hpre w hw

/-- Erasing the cell right after a prefix. -/
theorem eraseIdx_prefix_length {α : Type} (pre : List α) (x : α) (post : List α) :
    (pre ++ x :: post).eraseIdx pre.length = pre ++ post := by
  induction pre with
  | nil => rfl
  | cons y ys ih => simp [List.eraseIdx, ih]

/-- C4: `delete_label r` raises the "label (relation=r) does not exist" error
exactly when no tuple of the catalog has `relation = r`, and it returns
normally exactly when some tuple has; when it raises the tuples are unchanged;
when it returns, the first tuple with `relation = r` is gone and all other
tuples stand as before, in order. -/
theorem delete_label_spec (relation : Oid) (st : Backend) :
    ((delete_label relation st).1 = .error (.ereport
        { sqlerrcode := .ERRCODE_UNDEFINED_TABLE
          message := "label (relation=" ++ toString relation ++ ") does not exist"
          detail := none })
      ↔ ∀ t ∈ st.ag_label, t.relation ≠ some relation) ∧
    ((delete_label relation st).1 = .ok () ↔ ∃ t ∈ st.ag_label, t.relation = some relation) ∧
    (∀ f, (delete_label relation st).1 = .error f →
      (delete_label relation st).2.ag_label = st.ag_label) ∧
    ((delete_label relation st).1 = .ok () →
      ∃ pre t post, st.ag_label = pre ++ t :: post ∧ t.relation = some relation ∧
        (∀ u ∈ pre, u.relation ≠ some relation) ∧
        (delete_label relation st).2.ag_label = pre ++ post) := by
  cases hget : systable_getnext relation st.ag_label with
  | none =>
    have hno := (systable_getnext_eq_none relation st.ag_label).mp hget
    have hrun : delete_label relation st
        = (.error (.ereport
            { sqlerrcode := .ERRCODE_UNDEFINED_TABLE
              message := "label (relation=" ++ toString relation ++ ") does not exist"
              detail := none }), systable_beginscan (heap_open st)) := by
      simp [delete_label, heap_open, systable_beginscan, hget]
    rw [hrun]
    refine ⟨⟨fun _ => hno, fun _ => rfl⟩, ⟨(fun hok => by cases hok), ?_⟩, fun _ _ => rfl,
      (fun hok => by cases hok)⟩
    rintro ⟨t, ht, hrel⟩
    exact absurd hrel (hno t ht)
  | some i =>
    obtain ⟨pre, t, post, hrows, hlen, ht, hpre⟩ :=
      systable_getnext_eq_some relation st.ag_label i hget
    have hrun : delete_label relation st
        = (.ok (), heap_close (systable_endscan
            (CatalogTupleDelete (systable_beginscan (heap_open st)) i))) := by
      simp [delete_label, heap_open, systable_beginscan, hget]
    have hrows1 : (delete_label relation st).2.ag_label = pre ++ post := by
      rw [hrun]
      simp [heap_close, systable_endscan, CatalogTupleDelete, systable_beginscan, heap_open,
        hrows, ← hlen, eraseIdx_prefix_length]
    have hmem : t ∈ st.ag_label := by rw [hrows]; simp
    refine ⟨⟨fun herr => ?_, fun hno => absurd ht (hno t hmem)⟩,
      ⟨fun _ => ⟨t, hmem, ht⟩, (fun _ => by rw [hrun])⟩, fun f herr => ?_,
      fun _ => ⟨pre, t, post, hrows, ht, hpre, hrows1⟩⟩
    · rw [hrun] at herr; cases herr
    · rw [hrun] at herr; cases herr

theorem delete_label_spec_witness :
    ∃ pre t post,
      ([⟨16384, some (cstring "person"), some 10, some 1, some 'v', some 20⟩,
        ⟨16385, some (cstring "knows"), some 10, some 2, some 'e', some 21⟩,
        ⟨16386, some (cstring "likes"), some 10, some 3, some 'e', some 21⟩] : List HeapTuple)
        = pre ++ t :: post ∧ t.relation = some 21 ∧
      (∀ u ∈ pre, u.relation ≠ some 21) ∧
      (delete_label 21
        ⟨[⟨16384, some (cstring "person"), some 10, some 1, some 'v', some 20⟩,
          ⟨16385, some (cstring "knows"), some 10, some 2, some 'e', some 21⟩,
          ⟨16386, some (cstring "likes"), some 10, some 3, some 'e', some 21⟩], 16387, 0, 0⟩).2.ag_label
        = pre ++ post :=
  (delete_label_spec 21
    ⟨[⟨16384, some (cstring "person"), some 10, some 1, some 'v', some 20⟩,
      ⟨16385, some (cstring "knows"), some 10, some 2, some 'e', some 21⟩,
      ⟨16386, some (cstring "likes"), some 10, some 3, some 'e', some 21⟩], 16387, 0, 0⟩).2.2.2 rfl

/-! ## The label catalog: `insert_label` -/

/-- With assertion checking compiled out the five `AssertArg` lines do nothing. -/
theorem insert_label_asserts_disabled (h : LabelDecls) (label_name : Option CString)
    (label_graph : Oid) (label_id : Int) (label_kind : Char) (label_relation : Oid) :
    insert_label_asserts false h label_name label_graph label_id label_kind label_relation
      = .ok () := by
  simp [insert_label_asserts, AssertArg, bind, Except.bind]

/-- With assertion checking compiled in the five `AssertArg` lines pass exactly
when all five conditions hold, and trap otherwise. -/
theorem insert_label_asserts_enabled (h : LabelDecls) (label_name : Option CString)
    (label_graph : Oid) (label_id : Int) (label_kind : Char) (label_relation : Oid) :
    insert_label_asserts true h label_name label_graph label_id label_kind label_relation
      = if label_name.isSome && OidIsValid label_graph && h.label_id_is_valid label_id &&
            (label_kind == h.LABEL_KIND_VERTEX || label_kind == h.LABEL_KIND_EDGE) &&
            OidIsValid label_relation
        then .ok () else .error (.trap "BadArgument") := by
  cases h1 : label_name.isSome <;> cases h2 : OidIsValid label_graph <;>
    cases h3 : h.label_id_is_valid label_id <;>
    cases h4 : (label_kind == h.LABEL_KIND_VERTEX || label_kind == h.LABEL_KIND_EDGE) <;>
    cases h5 : OidIsValid label_relation <;>
    simp [insert_label_asserts, AssertArg, bind, Except.bind, h1, h2, h3, h4, h5]

/-- The assertions either pass or trap with "BadArgument". -/
theorem insert_label_asserts_cases (USE_ASSERT_CHECKING : Bool) (h : LabelDecls)
    (label_name : Option CString) (label_graph : Oid) (label_id : Int) (label_kind : Char)
    (label_relation : Oid) :
    insert_label_asserts USE_ASSERT_CHECKING h label_name label_graph label_id label_kind
        label_relation = .ok () ∨
    insert_label_asserts USE_ASSERT_CHECKING h label_name label_graph label_id label_kind
        label_relation = .error (.trap "BadArgument") := by
  cases USE_ASSERT_CHECKING with
  | false => exact Or.inl (insert_label_asserts_disabled _ _ _ _ _ _)
  | true =>
    rw [insert_label_asserts_enabled]
    split
    · exact Or.inl rfl
    · exact Or.inr rfl

/-- Once the assertions are passed and the store takes the tuple,
`insert_label` stores one tuple at the end of the catalog and returns its OID;
the lock is released again. -/
theorem insert_label_stores (USE_ASSERT_CHECKING : Bool) (h : LabelDecls)
    (store_error : List HeapTuple → HeapTuple → Option ErrorData) (uninit_name : CString)
    (label_name : Option CString)
    (label_graph : Oid) (label_id : Int) (label_kind : Char) (label_relation : Oid)
    (st : Backend)
    (hpass : insert_label_asserts USE_ASSERT_CHECKING h label_name label_graph label_id
      label_kind label_relation = .ok ())
    (hstore : store_error st.ag_label
      { t_oid := st.next_oid
        name := some (namestrcpy uninit_name label_name).2
        graph := some label_graph
        id := some label_id
        kind := some label_kind
        relation := some label_relation } = none) :
    insert_label USE_ASSERT_CHECKING h store_error uninit_name label_name label_graph label_id
        label_kind label_relation st
      = (.ok st.next_oid,
          { st with
            ag_label := st.ag_label ++
              [{ t_oid := st.next_oid
                 name := some (namestrcpy uninit_name label_name).2
                 graph := some label_graph
                 id := some label_id
                 kind := some label_kind
                 relation := some label_relation }]
            next_oid := st.next_oid + 1 }) := by
  simp [insert_label, hpass, heap_close, CatalogTupleInsert, heap_open, heap_form_tuple, hstore]

/-- Once the assertions are passed and the store raises on the tuple,
`insert_label` is left by that error: no tuple is added and the lock taken by
`heap_open` is still held. -/
theorem insert_label_store_raises (USE_ASSERT_CHECKING : Bool) (h : LabelDecls)
    (store_error : List HeapTuple → HeapTuple → Option ErrorData) (uninit_name : CString)
    (label_name : Option CString)
    (label_graph : Oid) (label_id : Int) (label_kind : Char) (label_relation : Oid)
    (st : Backend) (edata : ErrorData)
    (hpass : insert_label_asserts USE_ASSERT_CHECKING h label_name label_graph label_id
      label_kind label_relation = .ok ())
    (hstore : store_error st.ag_label
      { t_oid := st.next_oid
        name := some (namestrcpy uninit_name label_name).2
        graph := some label_graph
        id := some label_id
        kind := some label_kind
        relation := some label_relation } = some edata) :
    insert_label USE_ASSERT_CHECKING h store_error uninit_name label_name label_graph label_id
        label_kind label_relation st
      = (.error (.ereport edata),
          { st with
            next_oid := st.next_oid + 1
            ag_label_locks := st.ag_label_locks + 1 }) := by
  simp [insert_label, hpass, CatalogTupleInsert, heap_open, heap_form_tuple, hstore]

/-- The three ways `insert_label` ends: the assertion trap before anything is
touched, the error of the store with the lock held, or the normal return. -/
theorem insert_label_outcome (USE_ASSERT_CHECKING : Bool) (h : LabelDecls)
    (store_error : List HeapTuple → HeapTuple → Option ErrorData) (uninit_name : CString)
    (label_name : Option CString)
    (label_graph : Oid) (label_id : Int) (label_kind : Char) (label_relation : Oid)
    (st : Backend) :
    insert_label USE_ASSERT_CHECKING h store_error uninit_name label_name label_graph label_id
        label_kind label_relation st = (.error (.trap "BadArgument"), st) ∨
    (∃ edata, insert_label USE_ASSERT_CHECKING h store_error uninit_name label_name label_graph
        label_id label_kind label_relation st
      = (.error (.ereport edata),
          { st with
            next_oid := st.next_oid + 1
            ag_label_locks := st.ag_label_locks + 1 })) ∨
    (∃ row, insert_label USE_ASSERT_CHECKING h store_error uninit_name label_name label_graph
        label_id label_kind label_relation st
      = (.ok st.next_oid,
          { st with
            ag_label := st.ag_label ++ [row]
            next_oid := st.next_oid + 1 })) := by
  rcases insert_label_asserts_cases USE_ASSERT_CHECKING h label_name label_graph label_id
    label_kind label_relation with hpass | hfail
  · cases hstore : store_error st.ag_label
        { t_oid := st.next_oid
          name := some (namestrcpy uninit_name label_name).2
          graph := some label_graph
          id := some label_id
          kind := some label_kind
          relation := some label_relation } with
    | none =>
      exact Or.inr (Or.inr ⟨_, insert_label_stores _ _ _ _ _ _ _ _ _ _ hpass hstore⟩)
    | some edata =>
      exact Or.inr (Or.inl ⟨edata, insert_label_store_raises _ _ _ _ _ _ _ _ _ _ _ hpass hstore⟩)
  · exact Or.inl (by simp [insert_label, hfail])

/-- A build without assertion checking stores whatever it is given, a NULL
name included: `namestrcpy` then leaves the buffer as it was and the tuple
gets the bytes that happened to be there. -/
theorem insert_label_unchecked (h : LabelDecls)
    (store_error : List HeapTuple → HeapTuple → Option ErrorData) (uninit_name : CString)
    (label_graph : Oid) (label_id : Int) (label_kind : Char) (label_relation : Oid)
    (st : Backend)
    (hstore : store_error st.ag_label
      { t_oid := st.next_oid
        name := some uninit_name
        graph := some label_graph
        id := some label_id
        kind := some label_kind
        relation := some label_relation } = none) :
    insert_label false h store_error uninit_name none label_graph label_id label_kind
        label_relation st
      = (.ok st.next_oid,
          { st with
            ag_label := st.ag_label ++
              [{ t_oid := st.next_oid
                 name := some uninit_name
                 graph := some label_graph
                 id := some label_id
                 kind := some label_kind
                 relation := some label_relation }]
            next_oid := st.next_oid + 1 }) :=
  insert_label_stores false h store_error uninit_name none label_graph label_id label_kind
    label_relation st (insert_label_asserts_disabled h none label_graph label_id label_kind
      label_relation) hstore

/-- C6, as the claim states it, fails: with assertion checking compiled in and
the other four arguments valid, `insert_label` accepts the empty name and
stores a tuple for it. -/
theorem insert_label_accepts_empty_name :
    insert_label true ⟨fun id => decide (1 ≤ id ∧ id ≤ 65535), 'v', 'e', 0⟩
        ag_label_unique_indexes (cstring "junk") (some []) 10 1 'v' 20 ⟨[], 16384, 0, 0⟩
      = (.ok 16384,
          ⟨[⟨16384, some [], some 10, some 1, some 'v', some 20⟩], 16385, 0, 0⟩) := by
  rw [insert_label_stores _ _ _ _ _ _ _ _ _ _ (by rfl) (by rfl)]
  rfl

/-- C6, amended: in a build with assertion checking, `insert_label` trips its
argument assertion and leaves the catalog as it was whenever the name pointer
is NULL, the graph OID is invalid, `label_id` fails `label_id_is_valid`, the
kind is neither vertex nor edge, or the relation OID is invalid. -/
theorem insert_label_rejects_malformed (h : LabelDecls)
    (store_error : List HeapTuple → HeapTuple → Option ErrorData) (uninit_name : CString)
    (label_name : Option CString)
    (label_graph : Oid) (label_id : Int) (label_kind : Char) (label_relation : Oid)
    (st : Backend)
    (hbad : label_name = none ∨ OidIsValid label_graph = false ∨
      h.label_id_is_valid label_id = false ∨
      (label_kind ≠ h.LABEL_KIND_VERTEX ∧ label_kind ≠ h.LABEL_KIND_EDGE) ∨
      OidIsValid label_relation = false) :
    insert_label true h store_error uninit_name label_name label_graph label_id label_kind
        label_relation st
      = (.error (.trap "BadArgument"), st) := by
  have hfail : insert_label_asserts true h label_name label_graph label_id label_kind
      label_relation = .error (.trap "BadArgument") := by
    rw [insert_label_asserts_enabled]
    rcases hbad with hb | hb | hb | hb | hb
    · simp [hb]
    · simp [hb]
    · simp [hb]
    · simp [hb.1, hb.2]
    · simp [hb]
  simp [insert_label, hfail]

theorem insert_label_rejects_malformed_witness :
    insert_label true ⟨fun id => decide (1 ≤ id ∧ id ≤ 65535), 'v', 'e', 0⟩
        ag_label_unique_indexes (cstring "junk") (some (cstring "person")) 10 0 'v' 20
        ⟨[], 16384, 0, 0⟩
      = (.error (.trap "BadArgument"), ⟨[], 16384, 0, 0⟩) :=
  insert_label_rejects_malformed _ _ _ _ _ _ _ _ _ (Or.inr (Or.inr (Or.inl (by decide))))

/-- A name that fits a `NameData` buffer is copied whole. -/
theorem namestrcpy_short (uninit_name str : CString) (hlen : str.length ≤ NAMEDATALEN - 1) :
    (namestrcpy uninit_name (some str)).2 = str := by
  simp [namestrcpy, List.take_of_length_le hlen]

/-- The cut of `namestrcpy` is at a byte, not at a character: of "a" followed
by forty two-byte characters (81 bytes) it keeps 63 bytes, the last of them the
first half of a character. -/
theorem namestrcpy_splits_character :
    (namestrcpy [] (some (97 :: (List.replicate 40 [195, 169]).flatten))).2
      = 97 :: (List.replicate 31 [195, 169]).flatten ∧
    (97 :: (List.replicate 31 [195, 169]).flatten : CString).length = 63 := by
  decide

/-- C7, as the claim states it, fails: of a name of 64 bytes `insert_label`
stores the first 63 only. -/
theorem insert_label_truncates_name :
    (insert_label true ⟨fun id => decide (1 ≤ id ∧ id ≤ 65535), 'v', 'e', 0⟩
        ag_label_unique_indexes (cstring "junk")
        (some (List.replicate 64 97)) 10 1 'v' 20 ⟨[], 16384, 0, 0⟩).2.ag_label
      = [⟨16384, some (List.replicate 63 97), some 10, some 1, some 'v', some 20⟩] ∧
    (List.replicate 63 97 : CString) ≠ List.replicate 64 97 := by
  refine ⟨?_, by decide⟩
  rw [insert_label_stores _ _ _ _ _ _ _ _ _ _ (by rfl) (by rfl)]
  decide

/-- C7, amended: for a name that is present, valid graph and relation OIDs, a
valid label id and a vertex or edge kind, and a catalog state in which the
store raises no error on the new tuple (no duplicate key), `insert_label`
stores exactly one new tuple after the existing ones, which stay as they are;
none of its columns is null; graph, id, kind and relation are the arguments;
the name is the first `NAMEDATALEN - 1` (63) bytes of the given name, which is
the whole name when it is at most 63 bytes long; and the value returned is the
OID given to the new tuple. -/
theorem insert_label_appends_row (USE_ASSERT_CHECKING : Bool) (h : LabelDecls)
    (store_error : List HeapTuple → HeapTuple → Option ErrorData) (uninit_name : CString)
    (str : CString)
    (label_graph : Oid) (label_id : Int) (label_kind : Char) (label_relation : Oid)
    (st : Backend)
    (hgraph : OidIsValid label_graph = true)
    (hid : h.label_id_is_valid label_id = true)
    (hkind : label_kind = h.LABEL_KIND_VERTEX ∨ label_kind = h.LABEL_KIND_EDGE)
    (hrel : OidIsValid label_relation = true)
    (hstore : store_error st.ag_label
      { t_oid := st.next_oid
        name := some (str.take 63)
        graph := some label_graph
        id := some label_id
        kind := some label_kind
        relation := some label_relation } = none) :
    insert_label USE_ASSERT_CHECKING h store_error uninit_name (some str) label_graph label_id
        label_kind label_relation st
      = (.ok st.next_oid,
          { st with
            ag_label := st.ag_label ++
              [{ t_oid := st.next_oid
                 name := some (str.take 63)
                 graph := some label_graph
                 id := some label_id
                 kind := some label_kind
                 relation := some label_relation }]
            next_oid := st.next_oid + 1 }) ∧
    (str.length ≤ 63 → str.take 63 = str) := by
  refine ⟨?_, fun hlen => List.take_of_length_le hlen⟩
  have hpass : insert_label_asserts USE_ASSERT_CHECKING h (some str) label_graph label_id
      label_kind label_relation = .ok () := by
    cases USE_ASSERT_CHECKING with
    | false => exact insert_label_asserts_disabled _ _ _ _ _ _
    | true =>
      rw [insert_label_asserts_enabled]
      rcases hkind with hk | hk <;> simp [hgraph, hid, hrel, hk]
  exact insert_label_stores USE_ASSERT_CHECKING h store_error uninit_name (some str)
    label_graph label_id label_kind label_relation st hpass hstore

theorem insert_label_appends_row_witness :
    insert_label true ⟨fun id => decide (1 ≤ id ∧ id ≤ 65535), 'v', 'e', 0⟩
        ag_label_unique_indexes (cstring "junk") (some (cstring "knows")) 10 2 'e' 21
        ⟨[⟨16384, some (cstring "person"), some 10, some 1, some 'v', some 20⟩], 16385, 0, 0⟩
      = (.ok 16385,
          ⟨[⟨16384, some (cstring "person"), some 10, some 1, some 'v', some 20⟩,
            ⟨16385, some (cstring "knows"), some 10, some 2, some 'e', some 21⟩],
            16386, 0, 0⟩) :=
  (insert_label_appends_row true ⟨fun id => decide (1 ≤ id ∧ id ≤ 65535), 'v', 'e', 0⟩
    ag_label_unique_indexes (cstring "junk") (cstring "knows") 10 2 'e' 21
    ⟨[⟨16384, some (cstring "person"), some 10, some 1, some 'v', some 20⟩], 16385, 0, 0⟩
    rfl (by decide) (Or.inr rfl) rfl (by decide)).1.trans rfl

/-! ## The label catalog: locks and scans -/

/-- The state `delete_label` is in when it raises or returns. -/
theorem delete_label_lock_state (relation : Oid) (st : Backend) :
    (∀ f, (delete_label relation st).1 = .error f →
      (delete_label relation st).2.ag_label_locks = st.ag_label_locks + 1 ∧
      (delete_label relation st).2.open_scans = st.open_scans + 1) ∧
    ((delete_label relation st).1 = .ok () →
      (delete_label relation st).2.ag_label_locks = st.ag_label_locks ∧
      (delete_label relation st).2.open_scans = st.open_scans) := by
  cases hget : systable_getnext relation st.ag_label with
  | none =>
    have hrun : delete_label relation st
        = (.error (.ereport
            { sqlerrcode := .ERRCODE_UNDEFINED_TABLE
              message := "label (relation=" ++ toString relation ++ ") does not exist"
              detail := none }), systable_beginscan (heap_open st)) := by
      simp [delete_label, heap_open, systable_beginscan, hget]
    rw [hrun]
    exact ⟨fun _ _ => ⟨rfl, rfl⟩, (fun hok => by cases hok)⟩
  | some i =>
    have hrun : delete_label relation st
        = (.ok (), heap_close (systable_endscan
            (CatalogTupleDelete (systable_beginscan (heap_open st)) i))) := by
      simp [delete_label, heap_open, systable_beginscan, hget]
    rw [hrun]
    refine ⟨(fun f herr => by cases herr), fun _ => ?_⟩
    simp [heap_close, systable_endscan, CatalogTupleDelete, systable_beginscan, heap_open]

/-- C5, as the claim states it, fails: `delete_label` on a catalog without a
matching tuple raises while it still holds the lock and the scan it opened. -/
theorem delete_label_error_holds_lock :
    (delete_label 5 ⟨[], 16384, 0, 0⟩).1
      = .error (.ereport ⟨.ERRCODE_UNDEFINED_TABLE, "label (relation=5) does not exist", none⟩) ∧
    (delete_label 5 ⟨[], 16384, 0, 0⟩).2.ag_label_locks = 1 ∧
    (delete_label 5 ⟨[], 16384, 0, 0⟩).2.open_scans = 1 := by
  refine ⟨?_, rfl, rfl⟩
  simp [delete_label, systable_getnext, heap_open, systable_beginscan]
  decide

/-- The same on the insert side: a tuple whose relation is already in the
catalog makes the store raise inside `insert_label`, which is left with the
lock from `heap_open` still held and no tuple added. -/
theorem insert_label_duplicate_holds_lock :
    insert_label true ⟨fun id => decide (1 ≤ id ∧ id ≤ 65535), 'v', 'e', 0⟩
        ag_label_unique_indexes (cstring "junk") (some (cstring "knows")) 10 2 'e' 20
        ⟨[⟨16384, some (cstring "person"), some 10, some 1, some 'v', some 20⟩], 16385, 0, 0⟩
      = (.error (.ereport
          ⟨.ERRCODE_UNIQUE_VIOLATION, "duplicate key value violates unique constraint", none⟩),
         ⟨[⟨16384, some (cstring "person"), some 10, some 1, some 'v', some 20⟩],
           16386, 1, 0⟩) := by
  rw [insert_label_store_raises _ _ _ _ _ _ _ _ _ _
    ⟨.ERRCODE_UNIQUE_VIOLATION, "duplicate key value violates unique constraint", none⟩
    (by rfl) (by decide)]

/-- C5, amended: on the normal return of `insert_label` and of `delete_label`
the lock and the scan the operation took are released again (the counts are
back to what they were), and the assertion exit of `insert_label` comes before
any lock is taken.  On the exits by `ereport(ERROR, ...)` after `heap_open` the
function is left with what it took still held: `insert_label`, when the store
raises on the new tuple, with the lock (one more than before); `delete_label`,
when no tuple matches, with the lock and the scan (one more of each).
`insert_label` has no other way to end. -/
theorem catalog_ops_lock_release (USE_ASSERT_CHECKING : Bool) (h : LabelDecls)
    (store_error : List HeapTuple → HeapTuple → Option ErrorData) (uninit_name : CString)
    (label_name : Option CString) (label_graph : Oid) (label_id : Int)
    (label_kind : Char) (label_relation : Oid) (relation : Oid) (st : Backend) :
    (∀ oid, (insert_label USE_ASSERT_CHECKING h store_error uninit_name label_name label_graph
        label_id label_kind label_relation st).1 = .ok oid →
      (insert_label USE_ASSERT_CHECKING h store_error uninit_name label_name label_graph
        label_id label_kind label_relation st).2.ag_label_locks = st.ag_label_locks ∧
      (insert_label USE_ASSERT_CHECKING h store_error uninit_name label_name label_graph
        label_id label_kind label_relation st).2.open_scans = st.open_scans) ∧
    (∀ errorType, (insert_label USE_ASSERT_CHECKING h store_error uninit_name label_name
        label_graph label_id label_kind label_relation st).1 = .error (.trap errorType) →
      (insert_label USE_ASSERT_CHECKING h store_error uninit_name label_name label_graph
        label_id label_kind label_relation st).2 = st) ∧
    (∀ edata, (insert_label USE_ASSERT_CHECKING h store_error uninit_name label_name
        label_graph label_id label_kind label_relation st).1 = .error (.ereport edata) →
      (insert_label USE_ASSERT_CHECKING h store_error uninit_name label_name label_graph
        label_id label_kind label_relation st).2.ag_label_locks = st.ag_label_locks + 1 ∧
      (insert_label USE_ASSERT_CHECKING h store_error uninit_name label_name label_graph
        label_id label_kind label_relation st).2.open_scans = st.open_scans) ∧
    ((insert_label USE_ASSERT_CHECKING h store_error uninit_name label_name label_graph
        label_id label_kind label_relation st).1 ≠ .error .segv) ∧
    ((delete_label relation st).1 = .ok () →
      (delete_label relation st).2.ag_label_locks = st.ag_label_locks ∧
      (delete_label relation st).2.open_scans = st.open_scans) ∧
    (∀ f, (delete_label relation st).1 = .error f →
      (delete_label relation st).2.ag_label_locks = st.ag_label_locks + 1 ∧
      (delete_label relation st).2.open_scans = st.open_scans + 1) := by
  refine ⟨?_, ?_, ?_, ?_, (delete_label_lock_state relation st).2,
    (delete_label_lock_state relation st).1⟩
  all_goals
    rcases insert_label_outcome USE_ASSERT_CHECKING h store_error uninit_name label_name
      label_graph label_id label_kind label_relation st with hrun | ⟨edata1, hrun⟩ | ⟨row, hrun⟩
    all_goals simp [hrun]

theorem catalog_ops_lock_release_witness :
    (insert_label true ⟨fun id => decide (1 ≤ id ∧ id ≤ 65535), 'v', 'e', 0⟩
        ag_label_unique_indexes (cstring "junk") (some (cstring "knows")) 10 2 'e' 20
        ⟨[⟨16384, some (cstring "person"), some 10, some 1, some 'v', some 20⟩],
          16385, 2, 1⟩).2.ag_label_locks = 3 ∧
    (delete_label 20
        ⟨[⟨16384, some (cstring "person"), some 10, some 1, some 'v', some 20⟩],
          16385, 2, 1⟩).2.ag_label_locks = 2 :=
  ⟨((catalog_ops_lock_release true ⟨fun id => decide (1 ≤ id ∧ id ≤ 65535), 'v', 'e', 0⟩
      ag_label_unique_indexes (cstring "junk") (some (cstring "knows")) 10 2 'e' 20 20
      ⟨[⟨16384, some (cstring "person"), some 10, some 1, some 'v', some 20⟩], 16385, 2, 1⟩).2.2.1
      ⟨.ERRCODE_UNIQUE_VIOLATION, "duplicate key value violates unique constraint", none⟩
      (by rw [insert_label_store_raises _ _ _ _ _ _ _ _ _ _
        ⟨.ERRCODE_UNIQUE_VIOLATION, "duplicate key value violates unique constraint", none⟩
        (by rfl) (by decide)])).1,
   ((catalog_ops_lock_release true ⟨fun id => decide (1 ≤ id ∧ id ≤ 65535), 'v', 'e', 0⟩
      ag_label_unique_indexes (cstring "junk") (some (cstring "knows")) 10 2 'e' 20 20
      ⟨[⟨16384, some (cstring "person"), some 10, some 1, some 'v', some 20⟩], 16385, 2, 1⟩).2.2.2.2.1
      rfl).1⟩

/-! ## The scalar utility `_label_id` -/

/-- C8: `_label_id` raises the "graph_name and label_name must not be null"
error exactly when its graph-name or its label-name argument is null; then it
makes no graph or label lookup and returns no id; with both present it looks
the graph up, then the label, and returns
`get_label_id(label_name, get_graph_oid(graph_name))`, which is
`INVALID_LABEL_ID` when the cache has no record. -/
theorem label_id_scalar_spec (h : LabelDecls) (get_graph_oid : String → Oid)
    (search_label_name_graph_cache : String → Oid → Option label_cache_data)
    (arg0 arg1 : Option String) :
    ((_label_id h get_graph_oid search_label_name_graph_cache arg0 arg1).result
        = .error (.ereport
            { sqlerrcode := .ERRCODE_NULL_VALUE_NOT_ALLOWED
              message := "graph_name and label_name must not be null"
              detail := none })
      ↔ (arg0 = none ∨ arg1 = none)) ∧
    ((arg0 = none ∨ arg1 = none) →
      (_label_id h get_graph_oid search_label_name_graph_cache arg0 arg1).lookups = [] ∧
      ∀ id, (_label_id h get_graph_oid search_label_name_graph_cache arg0 arg1).result
        ≠ .ok id) ∧
    (∀ graph_name label_name, arg0 = some graph_name → arg1 = some label_name →
      (_label_id h get_graph_oid search_label_name_graph_cache arg0 arg1).result
        = .ok (get_label_id h search_label_name_graph_cache label_name
            (get_graph_oid graph_name)) ∧
      (_label_id h get_graph_oid search_label_name_graph_cache arg0 arg1).lookups
        = [.graph_oid graph_name,
           .label_name_graph_cache label_name (get_graph_oid graph_name)]) ∧
    (∀ label_name label_graph,
      search_label_name_graph_cache label_name label_graph = none →
      get_label_id h search_label_name_graph_cache label_name label_graph
        = h.INVALID_LABEL_ID) := by
  refine ⟨?_, ?_, ?_, ?_⟩
  · cases arg0 <;> cases arg1 <;> simp [_label_id]
  · intro hnull
    cases arg0 <;> cases arg1 <;> simp_all [_label_id]
  · intro graph_name label_name h0 h1
    subst h0 h1
    exact ⟨rfl, rfl⟩
  · intro label_name label_graph hmiss
    simp [get_label_id, hmiss]

theorem label_id_scalar_spec_witness :
    (_label_id ⟨fun id => decide (1 ≤ id ∧ id ≤ 65535), 'v', 'e', 0⟩
        (fun graph_name => if graph_name = "g" then 10 else 0)
        (fun label_name label_graph =>
          if label_name = "person" ∧ label_graph = 10
          then some ⟨16384, "person", 10, 1, 'v', 20⟩ else none)
        (some "g") none).lookups = [] ∧
    (_label_id ⟨fun id => decide (1 ≤ id ∧ id ≤ 65535), 'v', 'e', 0⟩
        (fun graph_name => if graph_name = "g" then 10 else 0)
        (fun label_name label_graph =>
          if label_name = "person" ∧ label_graph = 10
          then some ⟨16384, "person", 10, 1, 'v', 20⟩ else none)
        (some "g") (some "person")).result = .ok 1 :=
  ⟨((label_id_scalar_spec _ _ _ (some "g") none).2.1 (Or.inr rfl)).1,
    ((label_id_scalar_spec ⟨fun id => decide (1 ≤ id ∧ id ≤ 65535), 'v', 'e', 0⟩
        (fun graph_name => if graph_name = "g" then 10 else 0)
        (fun label_name label_graph =>
          if label_name = "person" ∧ label_graph = 10
          then some ⟨16384, "person", 10, 1, 'v', 20⟩ else none)
        (some "g") (some "person")).2.2.1 "g" "person" rfl rfl).1.trans (by
      simp [get_label_id])⟩

/-! ## The sentinel functions -/

/-- C9: for every argument, null or not, `_cypher_create_clause` raises an
internal error and returns no value, and so does `cypher`, whose error detail
is the string it was given, or "NULL" for a null argument. -/
theorem sentinel_functions_always_raise (arg : Option Datum) (s : Option String) :
    _cypher_create_clause arg
      = .error (.ereport
          { sqlerrcode := .ERRCODE_INTERNAL_ERROR
            message := "unhandled _cypher_create_clause(internal) function call"
            detail := none }) ∧
    (∀ v, _cypher_create_clause arg ≠ .ok v) ∧
    cypher s
      = .error (.ereport
          { sqlerrcode := .ERRCODE_INTERNAL_ERROR
            message := "unhandled cypher(cstring) function call"
            detail := some (s.getD "NULL") }) ∧
    (∀ v, cypher s ≠ .ok v) := by
  refine ⟨rfl, ?_, ?_, ?_⟩
  · intro v hv
    cases hv
  · cases s <;> rfl
  · intro v hv
    cases hv

end AgensGraph
